import Mathlib

/-! Shallow embedding of the express-jobly data-access layer: the partial-update
SET-clause builder (`helpers/sql.js`) and the `Company` model with its two
WHERE-clause builder variants (`models/company.js`, which contains two
implementation variants of the class; the first uses `_whereClauseBuilder`
that embeds the `WHERE` keyword, the second uses `whereClauseBuilder` that
leaves the keyword to the caller).

JavaScript objects used as ordered field mappings are embedded as association
lists (`Object.keys` iteration order is insertion order for string keys);
positional SQL values are embedded as a `Value` type covering the numbers,
strings and explicit nulls that flow through these functions; thrown
`BadRequestError` / `NotFoundError` exceptions become an `Except Err` result.
The relational store itself (`db.js`) is not part of the sources, so query
execution is embedded explicitly: model methods return, next to their result,
the list of (SQL text, parameter list) pairs they submit to the store, and
the store-side row semantics needed by `create`/`update`/`remove` are
modelled from the spec where noted.
-/

/-- Modelled from the spec: the error conditions of `expressError.js` (not
among the sources; only its callers are). The callers use exactly two
classes, `BadRequestError` (a bad-request condition carrying a message) and
`NotFoundError` (a not-found condition carrying a message). -/
inductive Err where
  | badRequest (message : String)
  | notFound (message : String)
  deriving Repr, DecidableEq

/-- A SQL parameter value: the JavaScript numbers, strings and explicit
nulls that the model layer binds to positional placeholders. -/
inductive Value where
  | num (n : Int)
  | str (s : String)
  | null
  deriving Repr, DecidableEq

/-- Result record of `sqlForPartialUpdate`: `{ setCols, values }`. -/
structure SqlUpdateParts where
  setCols : String
  values : List Value
  deriving Repr, DecidableEq

/-- The column-name resolution `jsToSql[colName] || colName` from
`helpers/sql.js` line 25: the translated column when the table has a truthy
(present, non-empty) entry for the key, otherwise the key itself. -/
def resolveCol (jsToSql : List (String × String)) (colName : String) : String :=
  match jsToSql.lookup colName with
  | some s => if s = "" then colName else s
  | none => colName

/-- Embedding of `sqlForPartialUpdate(dataToUpdate, jsToSql)` from `helpers/sql.js`:
throws `BadRequestError("No data")` on an empty mapping, otherwise renders
each key, in iteration order, as `"<resolved column>"=$<index+1>`, joins the
fragments with `", "`, and returns the values in the same order. -/
def sqlForPartialUpdate (dataToUpdate : List (String × Value))
    (jsToSql : List (String × String)) : Except Err SqlUpdateParts :=
  let keys := dataToUpdate.map Prod.fst
  if keys.length = 0 then .error (.badRequest "No data")
  else
    let cols := keys.enum.map fun p =>
      "\"" ++ resolveCol jsToSql p.2 ++ "\"=$" ++ toString (p.1 + 1)
    .ok { setCols := String.intercalate ", " cols
        , values := dataToUpdate.map Prod.snd }

/-- The optional search filters accepted by `Company.findAll` and the two
WHERE-clause builders; an absent JavaScript key (or an `undefined` value,
which the builders treat identically via `!== undefined`) is `none`. -/
structure Filters where
  minEmployees : Option Int
  maxEmployees : Option Int
  name : Option String
  deriving Repr, DecidableEq

/-- Result record of the WHERE-clause builders: `{ SQL, parameters }`. -/
structure WhereClause where
  SQL : String
  parameters : List Value
  deriving Repr, DecidableEq

namespace Company

/-- Embedding of `Company._whereClauseBuilder(filters)` (first variant of
`models/company.js`): checks minEmployees, maxEmployees, name in that fixed
order, pushing the value first and numbering the placeholder with the new
`values.length`; the name value is wrapped as `_<name>%`; when at least one
clause was collected the output is prefixed with `WHERE `. -/
def _whereClauseBuilder (filters : Filters) : WhereClause :=
  let whereClauses : List String := []
  let values : List Value := []
  let (whereClauses, values) :=
    match filters.minEmployees with
    | some m =>
        let values := values ++ [Value.num m]
        (whereClauses ++ ["num_employees >= $" ++ toString values.length], values)
    | none => (whereClauses, values)
  let (whereClauses, values) :=
    match filters.maxEmployees with
    | some m =>
        let values := values ++ [Value.num m]
        (whereClauses ++ ["num_employees <= $" ++ toString values.length], values)
    | none => (whereClauses, values)
  let (whereClauses, values) :=
    match filters.name with
    | some n =>
        let values := values ++ [Value.str ("_" ++ n ++ "%")]
        (whereClauses ++ ["name ILIKE $" ++ toString values.length], values)
    | none => (whereClauses, values)
  let completedWhereClause :=
    if whereClauses.length > 0 then
      "WHERE " ++ String.intercalate " AND " whereClauses
    else ""
  { SQL := completedWhereClause, parameters := values }

/-- Embedding of `Company.whereClauseBuilder(filters)` (second variant of
`models/company.js`): checks minEmployees, maxEmployees, name in that fixed
order, pushing the clause with placeholder `$<++counter>` and then the value;
the name value is wrapped as `_<name>%`; the clauses are joined with
`" AND "` and no `WHERE` keyword is emitted. -/
def whereClauseBuilder (filters : Filters) : WhereClause :=
  let whereClauses : List String := []
  let counter : Nat := 0
  let values : List Value := []
  let (whereClauses, counter, values) :=
    match filters.minEmployees with
    | some m =>
        (whereClauses ++ ["num_employees >= $" ++ toString (counter + 1)],
         counter + 1, values ++ [Value.num m])
    | none => (whereClauses, counter, values)
  let (whereClauses, counter, values) :=
    match filters.maxEmployees with
    | some m =>
        (whereClauses ++ ["num_employees <= $" ++ toString (counter + 1)],
         counter + 1, values ++ [Value.num m])
    | none => (whereClauses, counter, values)
  let (whereClauses, counter, values) :=
    match filters.name with
    | some n =>
        (whereClauses ++ ["name ILIKE $" ++ toString (counter + 1)],
         counter + 1, values ++ [Value.str ("_" ++ n ++ "%")])
    | none => (whereClauses, counter, values)
  let _ := counter
  { SQL := String.intercalate " AND " whereClauses, parameters := values }

/-- A company row as stored and as returned by the model methods:
`{ handle, name, description, numEmployees, logoUrl }` with the two nullable
columns embedded as options. -/
structure CompanyRow where
  handle : String
  name : String
  description : String
  numEmployees : Option Int
  logoUrl : Option String
  deriving Repr, DecidableEq

/-- The relational store's visible state: the `companies` table rows. -/
abbrev DBState := List CompanyRow

/-- A query submitted to the store: its SQL text and positional values. -/
abbrev IssuedQuery := String × List Value

/-- The JavaScript comparison `minEmployees > maxEmployees` as it behaves in
`Company.findAll`: a numeric comparison when both operands are numbers, and
false whenever either operand is `undefined`. -/
def jsGt : Option Int → Option Int → Bool
  | some a, some b => a > b
  | _, _ => false

/-- The SELECT text of the first `findAll` variant, with the builder output
interpolated where the template writes `${SQL}`. -/
def findAllSql (whereSql : String) : String :=
  "SELECT handle,\n              name,\n              description,\n              num_employees AS \"numEmployees\",\n              logo_url AS \"logoUrl\"\n          FROM companies\n          " ++ whereSql ++ " \n          ORDER BY name"

/-- Embedding of `Company.findAll(searchFilters)` (first variant): rejects
`minEmployees > maxEmployees` with `BadRequestError` before anything else,
otherwise builds the clause with `_whereClauseBuilder` and submits one
SELECT. The store is abstracted as `dbExec`; next to the result the function
returns the list of queries it submitted. -/
def findAll (searchFilters : Filters)
    (dbExec : String → List Value → List CompanyRow) :
    Except Err (List CompanyRow) × List IssuedQuery :=
  if jsGt searchFilters.minEmployees searchFilters.maxEmployees then
    (.error (.badRequest "Min Employees must be less than Max Employees"), [])
  else
    let wc := _whereClauseBuilder searchFilters
    let sql := findAllSql wc.SQL
    (.ok (dbExec sql wc.parameters), [(sql, wc.parameters)])

/-- The SELECT text of the second `findAll` variant's unfiltered branch. -/
def findAllNoFilterSql : String :=
  "SELECT handle,\n                name,\n                description,\n                num_employees AS \"numEmployees\",\n                logo_url AS \"logoUrl\"\n           FROM companies\n           ORDER BY name"

/-- The SELECT text of the second `findAll` variant's filtered branch, with
the builder output interpolated after the hard-coded `WHERE `. -/
def findAllFilteredSql (whereSql : String) : String :=
  "SELECT handle,\n                name,\n                description,\n                num_employees AS \"numEmployees\",\n                logo_url AS \"logoUrl\"\n           FROM companies\n           WHERE " ++ whereSql ++ "\n           ORDER BY name"

/-- Embedding of `Company.findAll(searchFilters)` (second variant): rejects
`minEmployees > maxEmployees` with `BadRequestError` first; with no filter
keys it submits the unfiltered SELECT, otherwise it builds the clause with
`whereClauseBuilder` and prefixes `WHERE ` itself. -/
def findAllV2 (searchFilters : Filters)
    (dbExec : String → List Value → List CompanyRow) :
    Except Err (List CompanyRow) × List IssuedQuery :=
  if jsGt searchFilters.minEmployees searchFilters.maxEmployees then
    (.error (.badRequest "Min Employees must be less than Max Employees"), [])
  else if searchFilters = ⟨none, none, none⟩ then
    (.ok (dbExec findAllNoFilterSql []), [(findAllNoFilterSql, [])])
  else
    let wc := whereClauseBuilder searchFilters
    let sql := findAllFilteredSql wc.SQL
    (.ok (dbExec sql wc.parameters), [(sql, wc.parameters)])

/-- The field-name translation table `Company.update` passes to
`sqlForPartialUpdate`. -/
def companyJsToSql : List (String × String) :=
  [("numEmployees", "num_employees"), ("logoUrl", "logo_url")]

/-- Modelled from the spec: the store's UPDATE semantics for one company row
(the store itself, `db.js`, is not among the sources). Setting `name` or
`description` replaces the string column; setting `numEmployees` or
`logoUrl` replaces the nullable column, with an explicit null clearing it. -/
def applyField (row : CompanyRow) (kv : String × Value) : CompanyRow :=
  match kv with
  | ("name", Value.str s) => { row with name := s }
  | ("description", Value.str s) => { row with description := s }
  | ("numEmployees", Value.num k) => { row with numEmployees := some k }
  | ("numEmployees", Value.null) => { row with numEmployees := none }
  | ("logoUrl", Value.str s) => { row with logoUrl := some s }
  | ("logoUrl", Value.null) => { row with logoUrl := none }
  | _ => row

/-- Modelled from the spec: applying a whole partial-update payload to a row,
field by field in payload order. -/
def applyUpdate (row : CompanyRow) (data : List (String × Value)) : CompanyRow :=
  data.foldl applyField row

/-- The duplicate-check SELECT text of `Company.create`. -/
def createDupCheckSql : String :=
  "SELECT handle\n           FROM companies\n           WHERE handle = $1"

/-- The INSERT text of `Company.create`. -/
def createInsertSql : String :=
  "INSERT INTO companies(\n          handle,\n          name,\n          description,\n          num_employees,\n          logo_url)\n           VALUES\n             ($1, $2, $3, $4, $5)\n           RETURNING handle, name, description, num_employees AS \"numEmployees\", logo_url AS \"logoUrl\""

/-- Embedding of `Company.create(data)`: submits the duplicate-check SELECT on the
handle; if a row comes back, throws `BadRequestError` with message
`Duplicate company: <handle>`; otherwise submits the INSERT and returns the
created row. The store-side row lookup (a SELECT by primary key returns the
matching row) is modelled from the spec. Returns the result, the submitted
queries in order, and the resulting table state. -/
def create (data : CompanyRow) (db : DBState) :
    Except Err CompanyRow × List IssuedQuery × DBState :=
  let dupQuery : IssuedQuery := (createDupCheckSql, [Value.str data.handle])
  match db.find? fun r => r.handle = data.handle with
  | some _ =>
      (.error (.badRequest ("Duplicate company: " ++ data.handle)), [dupQuery], db)
  | none =>
      let insertParams := [Value.str data.handle, Value.str data.name,
        Value.str data.description,
        (match data.numEmployees with | some k => Value.num k | none => Value.null),
        (match data.logoUrl with | some u => Value.str u | none => Value.null)]
      (.ok data, [dupQuery, (createInsertSql, insertParams)], db ++ [data])

/-- The UPDATE text of `Company.update`, with the SET columns and the
handle placeholder interpolated where the template writes `${setCols}` and
`${handleVarIdx}`. -/
def updateSql (setCols handleVarIdx : String) : String :=
  "\n      UPDATE companies\n      SET " ++ setCols ++ "\n        WHERE handle = " ++ handleVarIdx ++ "\n        RETURNING handle, name, description, num_employees AS \"numEmployees\", logo_url AS \"logoUrl\""

/-- Embedding of `Company.update(handle, data)`: builds the SET clause with
`sqlForPartialUpdate` and the Company translation table (an empty payload's
`BadRequestError` propagates before any query), appends
`WHERE handle = $<values.length+1>`, submits the UPDATE with the payload
values followed by the handle, and throws `NotFoundError` when no row comes
back. The store-side UPDATE semantics (rows affected are the rows whose
primary key matches; the returned row carries the updated columns) are
modelled from the spec. -/
def update (handle : String) (data : List (String × Value)) (db : DBState) :
    Except Err CompanyRow × List IssuedQuery × DBState :=
  match sqlForPartialUpdate data companyJsToSql with
  | .error e => (.error e, [], db)
  | .ok parts =>
      let handleVarIdx := "$" ++ toString (parts.values.length + 1)
      let querySql := updateSql parts.setCols handleVarIdx
      let params := parts.values ++ [Value.str handle]
      let log := [(querySql, params)]
      match db.find? fun r => r.handle = handle with
      | none => (.error (.notFound ("No company: " ++ handle)), log, db)
      | some row =>
          let updated := applyUpdate row data
          (.ok updated, log,
           db.map fun r => if r.handle = handle then applyUpdate r data else r)

/-- The DELETE text of `Company.remove`. -/
def removeSql : String :=
  "DELETE\n           FROM companies\n           WHERE handle = $1\n           RETURNING handle"

/-- Embedding of `Company.remove(handle)`: submits the DELETE (whose `RETURNING handle`
exposes the deleted key to the function body only for the zero-rows check)
and throws `NotFoundError` when no row came back; on success the JavaScript
function returns `undefined`, embedded as `none`. The store-side DELETE
semantics (rows affected are the rows whose primary key matches) are
modelled from the spec. -/
def remove (handle : String) (db : DBState) :
    Except Err (Option Value) × List IssuedQuery × DBState :=
  let log : List IssuedQuery := [(removeSql, [Value.str handle])]
  match db.find? fun r => r.handle = handle with
  | none => (.error (.notFound ("No company: " ++ handle)), log, db)
  | some _ => (.ok none, log, db.filter fun r => ¬ r.handle = handle)

end Company

open Company

/-! Helper lemmas on the `_<name>%` ILIKE pattern, shared by the theorems
below. -/

lemma underscorePattern_ne_percentPattern (n : String) :
    ("_" ++ n ++ "%" : String) ≠ "%" ++ n ++ "%" := by
  intro h
  have h2 := congrArg String.data h
  simp only [String.data_append] at h2
  have h3 : ('_' :: n.data) ++ ['%'] = ('%' :: n.data) ++ ['%'] := h2
  have h4 := List.append_cancel_right h3
  have h5 : ('_' : Char) = '%' := by injection h4
  exact absurd h5 (by decide)

lemma underscorePattern_ne_rawName (n : String) :
    ("_" ++ n ++ "%" : String) ≠ n := by
  intro h
  have h2 := congrArg String.length h
  simp only [String.length_append] at h2
  have e1 : ("_" : String).length = 1 := rfl
  have e2 : ("%" : String).length = 1 := rfl
  rw [e1, e2] at h2
  omega

/-- On a non-empty mapping `sqlForPartialUpdate` takes its success branch,
with the rendered fragments and the values in iteration order. -/
lemma sqlForPartialUpdate_ok (data : List (String × Value))
    (tab : List (String × String)) (h : data ≠ []) :
    sqlForPartialUpdate data tab =
      Except.ok ⟨String.intercalate ", " ((data.map Prod.fst).enum.map fun p =>
          "\"" ++ resolveCol tab p.2 ++ "\"=$" ++ toString (p.1 + 1)),
        data.map Prod.snd⟩ := by
  simp only [sqlForPartialUpdate]
  rw [if_neg (by simpa using h)]

/-- C1: for every non-empty update mapping and every translation table,
`sqlForPartialUpdate` returns `setCols` joined from fragments with `", "`,
where the i-th fragment is `"<col_i>"=$<i+1>` with the column resolved
through the table (falling back to the key itself when the key is absent
from the table), and the i-th value is the i-th entry's value in iteration
order. -/
theorem sqlForPartialUpdate_fragments (data : List (String × Value))
    (tab : List (String × String)) (h : data ≠ []) :
    ∃ frags : List String,
      sqlForPartialUpdate data tab =
        Except.ok ⟨String.intercalate ", " frags, data.map Prod.snd⟩ ∧
      frags.length = data.length ∧
      (∀ i k v, data[i]? = some (k, v) →
        frags[i]? =
          some ("\"" ++ resolveCol tab k ++ "\"=$" ++ toString (i + 1)) ∧
        (data.map Prod.snd)[i]? = some v) ∧
      (∀ key, tab.lookup key = none → resolveCol tab key = key) := by
  refine ⟨(data.map Prod.fst).enum.map
      (fun p => "\"" ++ resolveCol tab p.2 ++ "\"=$" ++ toString (p.1 + 1)),
      ?_, ?_, ?_, ?_⟩
  · exact sqlForPartialUpdate_ok data tab h
  · simp
  · intro i k v hi
    constructor
    · rw [List.getElem?_map, List.getElem?_enum, List.getElem?_map, hi]
      rfl
    · rw [List.getElem?_map, hi]
      rfl
  · intro key hk
    simp [resolveCol, hk]

/-- Witness for C1 at `build({a:1,b:2}, {a:"col_a"})`: the claimed fragments
`"col_a"=$1` and `"b"=$2` and values `[1, 2]`. -/
theorem sqlForPartialUpdate_fragments_witness :
    ([("a", Value.num 1), ("b", Value.num 2)] : List (String × Value)) ≠ [] ∧
    (∃ frags : List String,
      sqlForPartialUpdate [("a", Value.num 1), ("b", Value.num 2)] [("a", "col_a")] =
        Except.ok ⟨String.intercalate ", " frags,
          ([("a", Value.num 1), ("b", Value.num 2)] : List (String × Value)).map Prod.snd⟩ ∧
      frags.length = ([("a", Value.num 1), ("b", Value.num 2)] : List (String × Value)).length ∧
      (∀ i k v,
        ([("a", Value.num 1), ("b", Value.num 2)] : List (String × Value))[i]? = some (k, v) →
        frags[i]? =
          some ("\"" ++ resolveCol [("a", "col_a")] k ++ "\"=$" ++ toString (i + 1)) ∧
        (([("a", Value.num 1), ("b", Value.num 2)] : List (String × Value)).map Prod.snd)[i]? =
          some v) ∧
      (∀ key, ([("a", "col_a")] : List (String × String)).lookup key = none →
        resolveCol [("a", "col_a")] key = key)) :=
  ⟨by decide,
   sqlForPartialUpdate_fragments [("a", Value.num 1), ("b", Value.num 2)]
     [("a", "col_a")] (by decide)⟩

/-- C3: `sqlForPartialUpdate` fails with the bad-request error carrying
message `No data` exactly on the empty update mapping, whatever the
translation table. -/
theorem sqlForPartialUpdate_noData (data : List (String × Value))
    (tab : List (String × String)) :
    sqlForPartialUpdate data tab = Except.error (Err.badRequest "No data") ↔
      data = [] := by
  rcases data with _ | ⟨hd, tl⟩
  · simp [sqlForPartialUpdate]
  · simp [sqlForPartialUpdate]

/-- Witness for C3: the empty mapping does produce the `No data` error. -/
theorem sqlForPartialUpdate_noData_witness :
    sqlForPartialUpdate [] [("a", "col_a")] =
      Except.error (Err.badRequest "No data") :=
  (sqlForPartialUpdate_noData [] [("a", "col_a")]).mpr rfl

/-- C2: with all three filters present, `Company.whereClauseBuilder`
evaluates them in the fixed order minEmployees, maxEmployees, name, giving
exactly the clause `num_employees >= $1 AND num_employees <= $2 AND name
ILIKE $3` with values `[min, max, "_<name>%"]`; in particular the input
`{minEmployees:1, maxEmployees:2, name:"2"}` gives values `[1, 2, "_2%"]`.
(The first variant, `_whereClauseBuilder`, returns the same clause behind a
`WHERE ` prefix; see the C10 theorem.) -/
theorem whereClauseBuilder_fixedOrder (a b : Int) (n : String) :
    Company.whereClauseBuilder ⟨some a, some b, some n⟩ =
      ⟨"num_employees >= $1 AND num_employees <= $2 AND name ILIKE $3",
       [Value.num a, Value.num b, Value.str ("_" ++ n ++ "%")]⟩ ∧
    Company.whereClauseBuilder ⟨some 1, some 2, some "2"⟩ =
      ⟨"num_employees >= $1 AND num_employees <= $2 AND name ILIKE $3",
       [Value.num 1, Value.num 2, Value.str "_2%"]⟩ :=
  ⟨rfl, rfl⟩

/-- C4: whenever `name` is present, both builder variants push exactly the
transformed value `"_" ++ name ++ "%"` as the last parameter and append the
condition `name ILIKE $k` with `k` the index of that last parameter; the
transformed value is never the plain `%<name>%` pattern and never the raw
name. -/
theorem whereClauseBuilder_namePattern (om ox : Option Int) (n : String) :
    ∃ pre : List Value, ∃ rest : List String,
      (Company.whereClauseBuilder ⟨om, ox, some n⟩).parameters =
        pre ++ [Value.str ("_" ++ n ++ "%")] ∧
      (Company._whereClauseBuilder ⟨om, ox, some n⟩).parameters =
        pre ++ [Value.str ("_" ++ n ++ "%")] ∧
      (Company.whereClauseBuilder ⟨om, ox, some n⟩).SQL =
        String.intercalate " AND "
          (rest ++ ["name ILIKE $" ++ toString (pre.length + 1)]) ∧
      (Company._whereClauseBuilder ⟨om, ox, some n⟩).SQL =
        "WHERE " ++ String.intercalate " AND "
          (rest ++ ["name ILIKE $" ++ toString (pre.length + 1)]) ∧
      rest.length = pre.length ∧
      ("_" ++ n ++ "%" : String) ≠ "%" ++ n ++ "%" ∧
      ("_" ++ n ++ "%" : String) ≠ n := by
  have hne1 := underscorePattern_ne_percentPattern n
  have hne2 := underscorePattern_ne_rawName n
  rcases om with _ | a <;> rcases ox with _ | b
  · exact ⟨[], [], rfl, rfl, rfl, rfl, rfl, hne1, hne2⟩
  · exact ⟨[Value.num b], ["num_employees <= $" ++ toString (1 : Nat)],
      rfl, rfl, rfl, rfl, rfl, hne1, hne2⟩
  · exact ⟨[Value.num a], ["num_employees >= $" ++ toString (1 : Nat)],
      rfl, rfl, rfl, rfl, rfl, hne1, hne2⟩
  · exact ⟨[Value.num a, Value.num b],
      ["num_employees >= $" ++ toString (1 : Nat),
       "num_employees <= $" ++ toString (2 : Nat)],
      rfl, rfl, rfl, rfl, rfl, hne1, hne2⟩

/-- C5: `Company.whereClauseBuilder` numbers placeholders consecutively from
`$1` over only the conditions actually appended (each appended condition's
placeholder index is its 1-based position, and the number of conditions is
the number of present filters, so skipped filters consume no slot); in
particular `{maxEmployees:2}` alone gives `num_employees <= $1` with values
`[2]`, and no applicable filter gives the empty clause and empty values. -/
theorem whereClauseBuilder_consecutivePlaceholders (f : Filters) :
    (∃ conds : List (String × Value),
      (Company.whereClauseBuilder f).SQL =
        String.intercalate " AND "
          (conds.enum.map fun p => p.2.1 ++ toString (p.1 + 1)) ∧
      (Company.whereClauseBuilder f).parameters = conds.map Prod.snd ∧
      conds.length =
        (if f.minEmployees.isSome then 1 else 0) +
        (if f.maxEmployees.isSome then 1 else 0) +
        (if f.name.isSome then 1 else 0)) ∧
    Company.whereClauseBuilder ⟨none, some 2, none⟩ =
      ⟨"num_employees <= $1", [Value.num 2]⟩ ∧
    Company.whereClauseBuilder ⟨none, none, none⟩ = ⟨"", []⟩ := by
  refine ⟨?_, by decide, by decide⟩
  obtain ⟨om, ox, onm⟩ := f
  rcases om with _ | a <;> rcases ox with _ | b <;> rcases onm with _ | n
  · exact ⟨[], rfl, rfl, rfl⟩
  · exact ⟨[("name ILIKE $", Value.str ("_" ++ n ++ "%"))], rfl, rfl, rfl⟩
  · exact ⟨[("num_employees <= $", Value.num b)], rfl, rfl, rfl⟩
  · exact ⟨[("num_employees <= $", Value.num b),
      ("name ILIKE $", Value.str ("_" ++ n ++ "%"))], rfl, rfl, rfl⟩
  · exact ⟨[("num_employees >= $", Value.num a)], rfl, rfl, rfl⟩
  · exact ⟨[("num_employees >= $", Value.num a),
      ("name ILIKE $", Value.str ("_" ++ n ++ "%"))], rfl, rfl, rfl⟩
  · exact ⟨[("num_employees >= $", Value.num a),
      ("num_employees <= $", Value.num b)], rfl, rfl, rfl⟩
  · exact ⟨[("num_employees >= $", Value.num a),
      ("num_employees <= $", Value.num b),
      ("name ILIKE $", Value.str ("_" ++ n ++ "%"))], rfl, rfl, rfl⟩

/-- C10: the two builder variants always return identical parameter lists;
with at least one applicable condition the first variant's SQL equals
`WHERE ` concatenated with the second variant's SQL, and with none both
return the empty string. -/
theorem builders_agree_up_to_keyword (f : Filters) :
    (Company._whereClauseBuilder f).parameters =
      (Company.whereClauseBuilder f).parameters ∧
    ((f.minEmployees.isSome ∨ f.maxEmployees.isSome ∨ f.name.isSome) →
      (Company._whereClauseBuilder f).SQL =
        "WHERE " ++ (Company.whereClauseBuilder f).SQL) ∧
    (f.minEmployees = none ∧ f.maxEmployees = none ∧ f.name = none →
      (Company._whereClauseBuilder f).SQL = "" ∧
      (Company.whereClauseBuilder f).SQL = "") := by
  obtain ⟨om, ox, onm⟩ := f
  rcases om with _ | a <;> rcases ox with _ | b <;> rcases onm with _ | n
  · exact ⟨rfl, fun h => by simp at h, fun _ => ⟨rfl, rfl⟩⟩
  · exact ⟨rfl, fun _ => rfl, fun h => by simp at h⟩
  · exact ⟨rfl, fun _ => rfl, fun h => by simp at h⟩
  · exact ⟨rfl, fun _ => rfl, fun h => by simp at h⟩
  · exact ⟨rfl, fun _ => rfl, fun h => by simp at h⟩
  · exact ⟨rfl, fun _ => rfl, fun h => by simp at h⟩
  · exact ⟨rfl, fun _ => rfl, fun h => by simp at h⟩
  · exact ⟨rfl, fun _ => rfl, fun h => by simp at h⟩

/-- Witness for C10 at `{minEmployees:2}`: the first variant's SQL is the
second variant's behind the `WHERE ` prefix. -/
theorem builders_agree_up_to_keyword_witness :
    ((some 2 : Option Int).isSome ∨ (none : Option Int).isSome ∨
      (none : Option String).isSome) ∧
    (Company._whereClauseBuilder ⟨some 2, none, none⟩).SQL =
      "WHERE " ++ (Company.whereClauseBuilder ⟨some 2, none, none⟩).SQL :=
  ⟨Or.inl rfl,
   (builders_agree_up_to_keyword ⟨some 2, none, none⟩).2.1 (Or.inl rfl)⟩

/-- C6: when both bounds are present with `minEmployees > maxEmployees`,
both `findAll` variants fail with the bad-request error whose message names
the invalid min/max relationship, and they submit no query at all (the
result is the same for every store executor, the query log is empty, and in
particular the clause builder's output never reaches a query). -/
theorem findAll_minGtMax_badRequest (f : Filters) (a b : Int)
    (hm : f.minEmployees = some a) (hx : f.maxEmployees = some b)
    (hab : a > b) :
    ∀ dbExec : String → List Value → List CompanyRow,
      Company.findAll f dbExec =
        (Except.error
          (Err.badRequest "Min Employees must be less than Max Employees"),
         []) ∧
      Company.findAllV2 f dbExec =
        (Except.error
          (Err.badRequest "Min Employees must be less than Max Employees"),
         []) := by
  intro dbExec
  obtain ⟨om, ox, onm⟩ := f
  change om = some a at hm
  change ox = some b at hx
  subst hm
  subst hx
  have hgt : jsGt (some a) (some b) = true := by
    simpa [jsGt] using hab
  constructor
  · simp [Company.findAll, hgt]
  · simp [Company.findAllV2, hgt]

/-- Witness for C6 at `minEmployees=11, maxEmployees=2`. -/
theorem findAll_minGtMax_badRequest_witness :
    (⟨some 11, some 2, none⟩ : Filters).minEmployees = some 11 ∧
    (⟨some 11, some 2, none⟩ : Filters).maxEmployees = some 2 ∧
    (11 : Int) > 2 ∧
    (Company.findAll ⟨some 11, some 2, none⟩ (fun _ _ => []) =
        (Except.error
          (Err.badRequest "Min Employees must be less than Max Employees"),
         []) ∧
      Company.findAllV2 ⟨some 11, some 2, none⟩ (fun _ _ => []) =
        (Except.error
          (Err.badRequest "Min Employees must be less than Max Employees"),
         [])) :=
  ⟨rfl, rfl, by decide,
   findAll_minGtMax_badRequest ⟨some 11, some 2, none⟩ 11 2 rfl rfl
     (by decide) (fun _ _ => [])⟩

/-- C7: for every non-empty payload with n fields, `Company.update` builds
its SET clause through `sqlForPartialUpdate` with the Company translation
table, submits the single UPDATE whose text ends the clause with
`WHERE handle = $(n+1)` and whose parameters are the payload values followed
by the handle, fails with the not-found error exactly when no row with that
handle exists (zero rows affected), and otherwise returns the updated
record. -/
theorem companyUpdate_spec (handle : String) (data : List (String × Value))
    (db : DBState) (h : data ≠ []) :
    ∃ parts : SqlUpdateParts,
      sqlForPartialUpdate data companyJsToSql = Except.ok parts ∧
      parts.values.length = data.length ∧
      (Company.update handle data db).2.1 =
        [(Company.updateSql parts.setCols ("$" ++ toString (data.length + 1)),
          parts.values ++ [Value.str handle])] ∧
      ((Company.update handle data db).1 =
          Except.error (Err.notFound ("No company: " ++ handle)) ↔
        db.find? (fun r => r.handle = handle) = none) ∧
      (∀ row, db.find? (fun r => r.handle = handle) = some row →
        (Company.update handle data db).1 =
          Except.ok (Company.applyUpdate row data)) := by
  have hok := sqlForPartialUpdate_ok data companyJsToSql h
  refine ⟨_, hok, by simp, ?_, ?_, ?_⟩
  · rcases hfind : db.find? (fun r => r.handle = handle) with _ | row <;>
      simp [Company.update, hok, hfind]
  · rcases hfind : db.find? (fun r => r.handle = handle) with _ | row <;>
      simp [Company.update, hok, hfind]
  · intro row hrow
    simp [Company.update, hok, hrow]

/-- Witness payload for the C7 theorem. -/
def updateWitnessData : List (String × Value) := [("name", Value.str "New")]

/-- Witness table state for the C7 theorem. -/
def updateWitnessDb : DBState := [⟨"c1", "C1", "D", some 10, none⟩]

/-- Witness for C7: a one-field update of an existing company. -/
theorem companyUpdate_spec_witness :
    updateWitnessData ≠ [] ∧
    (∃ parts : SqlUpdateParts,
      sqlForPartialUpdate updateWitnessData companyJsToSql = Except.ok parts ∧
      parts.values.length = updateWitnessData.length ∧
      (Company.update "c1" updateWitnessData updateWitnessDb).2.1 =
        [(Company.updateSql parts.setCols
            ("$" ++ toString (updateWitnessData.length + 1)),
          parts.values ++ [Value.str "c1"])] ∧
      ((Company.update "c1" updateWitnessData updateWitnessDb).1 =
          Except.error (Err.notFound ("No company: " ++ "c1")) ↔
        updateWitnessDb.find? (fun r => r.handle = "c1") = none) ∧
      (∀ row, updateWitnessDb.find? (fun r => r.handle = "c1") = some row →
        (Company.update "c1" updateWitnessData updateWitnessDb).1 =
          Except.ok (Company.applyUpdate row updateWitnessData))) :=
  ⟨by decide, companyUpdate_spec "c1" updateWitnessData updateWitnessDb (by decide)⟩

/-- An existing company row used as concrete input below. -/
def dupRow : CompanyRow := ⟨"c1", "C1", "Desc", some 10, none⟩

/-- Counterexample for C8 as stated: creating a company whose handle already
exists fails with the bad-request error class itself (message `Duplicate
company: c1`), the same `BadRequestError` the no-data and min/max checks
use, not an error condition distinct from bad-request. -/
theorem companyCreate_duplicate_counterexample :
    (Company.create dupRow [dupRow]).1 =
      Except.error (Err.badRequest ("Duplicate company: " ++ "c1")) := by
  rfl

/-- C8 as amended: `Company.create` always submits the duplicate-check
SELECT on the handle first; when a row with the same handle exists it fails
with a bad-request error carrying the message `Duplicate company: <handle>`
(the duplicate case is distinguished by message only, not by a distinct
error class) and leaves the table unchanged; when none exists it inserts and
returns the created record with all five fields. -/
theorem companyCreate_spec (data : CompanyRow) (db : DBState) :
    (Company.create data db).2.1.head? =
      some (Company.createDupCheckSql, [Value.str data.handle]) ∧
    ((db.find? fun r => r.handle = data.handle).isSome →
      Company.create data db =
        (Except.error (Err.badRequest ("Duplicate company: " ++ data.handle)),
         [(Company.createDupCheckSql, [Value.str data.handle])], db)) ∧
    ((db.find? fun r => r.handle = data.handle) = none →
      (Company.create data db).1 = Except.ok data ∧
      (Company.create data db).2.2 = db ++ [data] ∧
      (Company.create data db).2.1.length = 2) := by
  rcases hfind : db.find? fun r => r.handle = data.handle with _ | r
  · refine ⟨?_, ?_, ?_⟩
    · simp [Company.create, hfind]
    · intro hsome
      rw [hfind] at hsome
      simp at hsome
    · intro _
      refine ⟨?_, ?_, ?_⟩ <;> simp [Company.create, hfind]
  · refine ⟨?_, ?_, ?_⟩
    · simp [Company.create, hfind]
    · intro _
      simp [Company.create, hfind]
    · intro hnone
      rw [hfind] at hnone
      cases hnone

/-- A fresh company row used as concrete input below. -/
def freshRow : CompanyRow := ⟨"c2", "C2", "D2", none, some "http://x"⟩

/-- Witness for C8 (amended): creating a fresh company on an empty table
succeeds, appends the row, and submits exactly the duplicate check plus the
INSERT. -/
theorem companyCreate_spec_witness :
    (([] : DBState).find? fun r => r.handle = freshRow.handle) = none ∧
    ((Company.create freshRow []).1 = Except.ok freshRow ∧
     (Company.create freshRow []).2.2 = [] ++ [freshRow] ∧
     (Company.create freshRow []).2.1.length = 2) :=
  ⟨by decide, (companyCreate_spec freshRow []).2.2 (by decide)⟩

/-- Counterexample for C9 as stated: removing an existing company returns
the JavaScript function's `undefined` (embedded `none`), not the deleted
key, even though the DELETE's `RETURNING handle` surfaced the key to the
function body. -/
theorem companyRemove_counterexample :
    (Company.remove "c1" [dupRow]).1 = Except.ok none ∧
    (Company.remove "c1" [dupRow]).1 ≠ Except.ok (some (Value.str "c1")) := by
  have h1 : (Company.remove "c1" [dupRow]).1 =
      Except.ok (none : Option Value) := rfl
  refine ⟨h1, ?_⟩
  intro h2
  rw [h1] at h2
  exact Option.noConfusion (Except.ok.inj h2)

/-- C9 as amended: `Company.remove` deletes the row by primary key through a
DELETE whose `RETURNING handle` exposes the deleted key only for the
zero-rows check, returns no value on success, and fails with the not-found
error exactly when no company with that handle exists. -/
theorem companyRemove_spec (handle : String) (db : DBState) :
    ((Company.remove handle db).1 =
        Except.error (Err.notFound ("No company: " ++ handle)) ↔
      db.find? (fun r => r.handle = handle) = none) ∧
    ((db.find? (fun r => r.handle = handle)).isSome →
      (Company.remove handle db).1 = Except.ok none ∧
      (Company.remove handle db).2.2 =
        db.filter (fun r => ¬ r.handle = handle)) ∧
    (Company.remove handle db).2.1 = [(Company.removeSql, [Value.str handle])] := by
  rcases hfind : db.find? (fun r => r.handle = handle) with _ | r
  · refine ⟨?_, ?_, ?_⟩
    · simp [Company.remove, hfind]
    · intro hsome
      rw [hfind] at hsome
      simp at hsome
    · simp [Company.remove, hfind]
  · refine ⟨?_, ?_, ?_⟩
    · simp [Company.remove, hfind]
    · intro _
      constructor <;> simp [Company.remove, hfind]
    · simp [Company.remove, hfind]

/-- Witness for C9 (amended): removing an existing company succeeds with no
returned value and drops the row. -/
theorem companyRemove_spec_witness :
    (([dupRow] : DBState).find? (fun r => r.handle = "c1")).isSome ∧
    ((Company.remove "c1" [dupRow]).1 = Except.ok none ∧
     (Company.remove "c1" [dupRow]).2.2 =
       ([dupRow] : DBState).filter (fun r => ¬ r.handle = "c1")) :=
  ⟨by decide, (companyRemove_spec "c1" [dupRow]).2.1 (by decide)⟩
